import Mathlib

/-!
Verification of the MealMind meal-plan generation, merge, persistence and
chat-routing workflow (`meal_mind_streamlit/utils/meal_plan_workflow.py`,
`utils/agent.py`, `utils/meal_router_agent.py`).

Conventions of the embedding:
* Python dictionaries that the workflow reads with `.get(key, default)` are
  modelled as structures with `Option`-typed fields (`none` = key absent).
* Python numbers (int/float) are modelled as rationals `ℚ`; `int(x)` is
  truncation toward zero and `round(x, 1)` is round-half-to-even at one
  decimal, both made explicit below.
* Calendar dates are modelled as a count of days since 1970-01-01 (which was
  a Thursday); `strftime("%A")` becomes `weekdayName`.
* Values that may fail Python `float()` conversion (e.g. arbitrary strings
  in agent-produced shopping lists) are modelled by `PyVal`.
-/

/-- A JSON scalar as seen by Python `float()`: either a value `float()`
converts to `q` (a number, or a numeric string), or a value on which
`float()` raises. -/
inductive PyVal where
  | num (q : ℚ)
  | nonnum
  deriving DecidableEq

/-- `float(d.get(key, 0))` for an optional field holding a `PyVal`:
a missing key defaults to `0`; `none` in the result means `float()` raised. -/
def pyFloatD : Option PyVal → Option ℚ
  | none => some 0
  | some (.num q) => some q
  | some .nonnum => none

/-- Python `int()` on a rational: truncation toward zero
(`Int.tdiv` truncates toward zero, and `q.den > 0`). -/
def pytrunc (q : ℚ) : ℤ := q.num.tdiv q.den

/-- Floor of a rational, computed by Euclidean division of numerator by
denominator (kernel-friendly form of `⌊q⌋`). -/
def rfloor (q : ℚ) : ℤ := q.num / (q.den : ℤ)

/-- Round to the nearest integer, ties to even (Python's `round`). -/
def roundHalfEven (q : ℚ) : ℤ :=
  let n := rfloor q
  let f := q - (n : ℚ)
  if f < 1/2 then n
  else if 1/2 < f then n + 1
  else if n % 2 = 0 then n else n + 1

/-- Python `round(q, 1)`. -/
def pyRound1 (q : ℚ) : ℚ := (roundHalfEven (10 * q) : ℚ) / 10

/-- `strftime("%A")` for the date `d` days after 1970-01-01 (a Thursday). -/
def weekdayName (d : ℕ) : String :=
  match d % 7 with
  | 0 => "Thursday"
  | 1 => "Friday"
  | 2 => "Saturday"
  | 3 => "Sunday"
  | 4 => "Monday"
  | 5 => "Tuesday"
  | _ => "Wednesday"

/-- Python `str.lower()` (ASCII case folding suffices for this code base). -/
def lowerStr (s : String) : String := String.mk (s.toList.map Char.toLower)

/-- `pat in s` on character lists: `pat` occurs contiguously in `s`. -/
def containsSeq (pat : List Char) : List Char → Bool
  | [] => pat.isEmpty
  | c :: tail => pat.isPrefixOf (c :: tail) || containsSeq pat tail

/-- Python's `pat in s` substring test. -/
def strContains (s pat : String) : Bool := containsSeq pat.toList s.toList

-- ==================== PLAN DOCUMENT MODEL ====================

/-- The `total_nutrition` object of one day of a plan; each field is read
with `.get(field, 0)` by the merger. -/
structure Nutrition where
  calories : Option ℚ
  protein_g : Option ℚ
  carbohydrates_g : Option ℚ
  fat_g : Option ℚ
  fiber_g : Option ℚ
  deriving DecidableEq

/-- One entry of `meal_plan.days`. -/
structure DayEntry where
  day : ℤ
  day_name : String
  total_nutrition : Option Nutrition
  deriving DecidableEq

/-- The `meal_plan.week_summary` object (fields the merger rewrites). -/
structure WeekSummary where
  average_daily_calories : Option ℚ
  average_daily_protein : Option ℚ
  average_daily_carbs : Option ℚ
  average_daily_fat : Option ℚ
  average_daily_fiber : Option ℚ
  inventory_utilization_rate : Option ℚ
  deriving DecidableEq

/-- One shopping-list item of a category array. -/
structure SItem where
  item : Option String
  quantity_to_purchase : Option PyVal
  total_quantity_needed : Option PyVal
  deriving DecidableEq

/-- The `recommendations.shopping_list_summary` object. -/
structure ShoppingList where
  proteins : Option (List SItem)
  produce : Option (List SItem)
  pantry : Option (List SItem)
  grains : Option (List SItem)
  vegetables : Option (List SItem)
  fruits : Option (List SItem)
  dairy_alternatives : Option (List SItem)
  total_estimated_cost : Option PyVal
  total_items_from_inventory : Option ℤ
  total_items_to_purchase : Option ℤ
  deriving DecidableEq

/-- The `recommendations` object (only `shopping_list_summary` is read). -/
structure Recommendations where
  shopping_list_summary : Option ShoppingList
  deriving DecidableEq

/-- The `meal_plan` object. -/
structure MealPlanSection where
  days : Option (List DayEntry)
  week_summary : Option WeekSummary
  deriving DecidableEq

/-- A full plan envelope as produced by `extract_json_from_response`.
`user_summary`/`metadata` record only key presence: the workflow never
reads their content. -/
structure PlanDoc where
  user_summary : Bool
  meal_plan : Option MealPlanSection
  recommendations : Option Recommendations
  metadata : Bool
  deriving DecidableEq

/-- The `meal_plan.days` list of a plan, as the merger reads it
(`plan.get("meal_plan", {}).get("days", [])`). -/
def planDays (p : PlanDoc) : List DayEntry := (p.meal_plan.bind (·.days)).getD []

/-- `MealPlanAgentWithExtraction.validate_meal_plan_structure`
(`utils/agent.py`): the four top-level keys must be present and
`meal_plan.days` must be a list with at least one entry. -/
def validate_meal_plan_structure (p : PlanDoc) : Bool :=
  if !p.user_summary then false
  else if p.meal_plan.isNone then false
  else if p.recommendations.isNone then false
  else if !p.metadata then false
  else
    match p.meal_plan with
    | none => false
    | some mp =>
      match mp.days with
      | none => false
      | some days => decide (1 ≤ days.length)

/-- The loop body of `fix_day_names_with_start_date`: entry `i` (counting
from `i0`) gets `day = i+1` and `day_name` of `base + i`. -/
def fixDaysFrom (base : ℕ) (i0 : ℕ) : List DayEntry → List DayEntry
  | [] => []
  | d :: ds =>
    { d with day_name := weekdayName (base + i0), day := (i0 : ℤ) + 1 } ::
      fixDaysFrom base (i0 + 1) ds

/-- `fix_day_names_with_start_date` (`utils/meal_plan_workflow.py`):
rewrite `day`/`day_name` of every entry of `meal_plan.days` from the start
date (falling back to today when absent). A plan without a `days` list is
returned unchanged. -/
def fix_day_names_with_start_date (p : PlanDoc) (start_date : Option ℕ)
    (today : ℕ) : PlanDoc :=
  let base := start_date.getD today
  match p.meal_plan with
  | none => p
  | some mp =>
    match mp.days with
    | none => p
    | some ds =>
      { p with meal_plan := some ({ mp with days := some (fixDaysFrom base 0 ds) }) }

-- ==================== SHOPPING-LIST MERGE ====================

/-- Does a shopping item carry an `item` name whose lower-casing equals
`key`? (Items without an `item` key never enter the lookup map.) -/
def matchesKey (key : String) (it : SItem) : Bool :=
  match it.item with
  | some n => lowerStr n == key
  | none => false

/-- Index of the last list element satisfying `p` (the dict comprehension
`{item["item"].lower(): item for item in ...}` keeps, for each key, the
last item with that key; appended items are registered under their key). -/
def lastIdxWith (p : SItem → Bool) : List SItem → Option ℕ
  | [] => none
  | x :: xs =>
    match lastIdxWith p xs with
    | some i => some (i + 1)
    | none => if p x then some 0 else none

/-- The inner `try` block summing quantities of a matched pair of items:
`quantity_to_purchase` is summed first; if any `float()` conversion raises,
the assignments already made are kept and the rest abandoned. -/
def mergeQuantities (ex newItem : SItem) : SItem :=
  match pyFloatD ex.quantity_to_purchase, pyFloatD newItem.quantity_to_purchase with
  | some q1, some q2 =>
    let ex1 := { ex with quantity_to_purchase := some (.num (q1 + q2)) }
    match pyFloatD ex1.total_quantity_needed, pyFloatD newItem.total_quantity_needed with
    | some t1, some t2 =>
      { ex1 with total_quantity_needed := some (.num (t1 + t2)) }
    | _, _ => ex1
  | _, _ => ex

/-- Processing of one item of plan_b's category list against the running
category list: items without an `item` key are skipped; a (lower-cased)
name match merges quantities into the matched entry in place; otherwise the
item is appended. -/
def mergeStep (acc : List SItem) (newItem : SItem) : List SItem :=
  match newItem.item with
  | none => acc
  | some n =>
    let key := lowerStr n
    match lastIdxWith (matchesKey key) acc with
    | some i =>
      match acc[i]? with
      | some ex => acc.set i (mergeQuantities ex newItem)
      | none => acc
    | none => acc ++ [newItem]

/-- Merge one category's item lists (plan_a's list, then each plan_b item). -/
def mergeCategory (a b : List SItem) : List SItem := b.foldl mergeStep a

/-- One step of the `for category in [...]` loop: if plan_b's summary has
the category, plan_a's (defaulting to `[]`) is replaced by the merged list. -/
def mergeCatField (get : ShoppingList → Option (List SItem))
    (set : ShoppingList → Option (List SItem) → ShoppingList)
    (sl2 : ShoppingList) (sl : ShoppingList) : ShoppingList :=
  match get sl2 with
  | some items2 => set sl (some (mergeCategory ((get sl).getD []) items2))
  | none => sl

/-- The `for category in [...]` loop over the fixed category set. -/
def mergeCategories (sl1 sl2 : ShoppingList) : ShoppingList :=
  let sl := mergeCatField (·.proteins) (fun s v => { s with proteins := v }) sl2 sl1
  let sl := mergeCatField (·.produce) (fun s v => { s with produce := v }) sl2 sl
  let sl := mergeCatField (·.pantry) (fun s v => { s with pantry := v }) sl2 sl
  let sl := mergeCatField (·.grains) (fun s v => { s with grains := v }) sl2 sl
  let sl := mergeCatField (·.vegetables) (fun s v => { s with vegetables := v }) sl2 sl
  let sl := mergeCatField (·.fruits) (fun s v => { s with fruits := v }) sl2 sl
  mergeCatField (·.dairy_alternatives) (fun s v => { s with dairy_alternatives := v }) sl2 sl

/-- Shopping-list reconciliation over the fixed category set, followed by
the `total_*` summations. If a `float()` on an estimated cost raises, the
category merges already performed are kept and the totals left untouched
(the surrounding `try/except` swallows the error). -/
def mergeShoppingLists (sl1 sl2 : ShoppingList) : ShoppingList :=
  let sl := mergeCategories sl1 sl2
  match pyFloatD sl.total_estimated_cost, pyFloatD sl2.total_estimated_cost with
  | some c1, some c2 =>
    { sl with
      total_estimated_cost := some (.num (c1 + c2)),
      total_items_from_inventory :=
        some ((sl.total_items_from_inventory.getD 0) + (sl2.total_items_from_inventory.getD 0)),
      total_items_to_purchase :=
        some ((sl.total_items_to_purchase.getD 0) + (sl2.total_items_to_purchase.getD 0)) }
  | _, _ => sl

-- ==================== BATCH MERGE PIPELINE ====================

/-- Day concatenation of `agent_generate_meal_plan`: append plan_b's days
(defaulting to `[]`) onto plan_a's, provided plan_a has a `meal_plan` with
a `days` key. -/
def mergeDaysStep (p1 p2 : PlanDoc) : PlanDoc :=
  let days2 := (p2.meal_plan.bind (·.days)).getD []
  match p1.meal_plan with
  | none => p1
  | some mp =>
    match mp.days with
    | none => p1
    | some ds => { p1 with meal_plan := some ({ mp with days := some (ds ++ days2) }) }

/-- Shopping-list step of `agent_generate_meal_plan`: merge the two
`shopping_list_summary` objects when both plans carry one (the in-place
mutation of `sl_1` is visible only when plan_a has both keys). -/
def mergeShoppingStep (p1 p2 : PlanDoc) : PlanDoc :=
  match p1.recommendations with
  | none => p1
  | some r1 =>
    match r1.shopping_list_summary, p2.recommendations.bind (·.shopping_list_summary) with
    | some sl1, some sl2 =>
      { p1 with
        recommendations :=
          some { r1 with shopping_list_summary := some (mergeShoppingLists sl1 sl2) } }
    | _, _ => p1

/-- `int(plan.get("recommendations", {}).get("shopping_list_summary", {})
.get("total_items_from_inventory", 0))` as read by the week-summary
recomputation. -/
def itemsUsedOf (p : PlanDoc) : ℤ :=
  ((p.recommendations.bind (·.shopping_list_summary)).bind (·.total_items_from_inventory)).getD 0

/-- `float(d.get("total_nutrition", {}).get(field, 0))` for one day. -/
def nutGet (f : Nutrition → Option ℚ) (d : DayEntry) : ℚ :=
  (d.total_nutrition.bind f).getD 0

/-- Arithmetic mean of one nutrition field over a list of days, a missing
field counting as `0`; the divisor is the actual number of days. -/
def meanField (f : Nutrition → Option ℚ) (ds : List DayEntry) : ℚ :=
  (ds.map (nutGet f)).sum / (ds.length : ℚ)

/-- Week-summary recomputation of `agent_generate_meal_plan`: when the
merged `days` list is non-empty, rewrite the averages (integer calories,
one-decimal macros, divisor = actual day count) and the inventory
utilization rate (ratio clamped to at most 100, rounded to one decimal;
`0` for an empty inventory). The writes land in the plan only when the
plan has a `week_summary` object (otherwise `.get("week_summary", {})`
returns a fresh dict and the writes are lost). -/
def recomputeWeekSummary (p : PlanDoc) (inventory_count : ℕ) : PlanDoc :=
  let all_days := planDays p
  if all_days.isEmpty then p
  else
    match p.meal_plan with
    | none => p
    | some mp =>
      match mp.week_summary with
      | none => p
      | some ws =>
        let n : ℚ := (all_days.length : ℚ)
        let ws1 := { ws with
          average_daily_calories := some ((pytrunc ((all_days.map (nutGet (·.calories))).sum / n) : ℚ)),
          average_daily_protein := some (pyRound1 ((all_days.map (nutGet (·.protein_g))).sum / n)),
          average_daily_carbs := some (pyRound1 ((all_days.map (nutGet (·.carbohydrates_g))).sum / n)),
          average_daily_fat := some (pyRound1 ((all_days.map (nutGet (·.fat_g))).sum / n)),
          average_daily_fiber := some (pyRound1 ((all_days.map (nutGet (·.fiber_g))).sum / n)) }
        let items_used : ℤ := itemsUsedOf p
        let ws2 :=
          if 0 < inventory_count then
            { ws1 with
              inventory_utilization_rate :=
                some (pyRound1 (min ((items_used : ℚ) / (inventory_count : ℚ) * 100) 100)) }
          else
            { ws1 with inventory_utilization_rate := some 0 }
        { p with meal_plan := some ({ mp with week_summary := some ws2 }) }

/-- The full merge of two extracted batches (days, shopping list, week
summary), before validation. -/
def mergedOf (a b : PlanDoc) (inventory_count : ℕ) : PlanDoc :=
  recomputeWeekSummary (mergeShoppingStep (mergeDaysStep a b) b) inventory_count

/-- The merge-and-validate section of `agent_generate_meal_plan`: `none`
when either extraction failed or the merged structure fails validation,
otherwise the merged plan with its day names fixed from the schedule's
`next_plan_date` (today when absent). -/
def agent_generate_merge (data1 data2 : Option PlanDoc) (inventory_count : ℕ)
    (next_plan_date : Option ℕ) (today : ℕ) : Option PlanDoc :=
  match data1, data2 with
  | some a, some b =>
    let m := mergedOf a b inventory_count
    if validate_meal_plan_structure m then
      some (fix_day_names_with_start_date m (some (next_plan_date.getD today)) today)
    else none
  | _, _ => none

/-- The generated plan stored into the workflow state: the merged plan when
the merge succeeded, otherwise the deterministic mock plan
(`generate_mock_meal_plan`, modelled as an opaque fallback value). -/
def agent_generate_result (mock : PlanDoc) (data1 data2 : Option PlanDoc)
    (inventory_count : ℕ) (next_plan_date : Option ℕ) (today : ℕ) : PlanDoc :=
  (agent_generate_merge data1 data2 inventory_count next_plan_date today).getD mock

-- ==================== SCHEDULING / RETRY LOOP ====================

/-- The slice of `MealPlanGenerationState` that the retry loop reads and
writes. `current_user`, `user_data` and `generated_plan` are tracked only
for presence (the routing tests are truthiness tests); `errorsLen` counts
the `errors` list. -/
structure WFState where
  current_user : Option Unit
  user_data : Option Unit
  generated_plan : Option Unit
  retry_count : ℕ
  success_count : ℕ
  failure_count : ℕ
  errorsLen : ℕ
  current_user_index : ℕ
  deriving DecidableEq

/-- Outcome of the persistence attempt (`save_meal_plan` + schedule
updates): either the commit succeeds or a DB exception is raised. -/
inductive PersistOutcome where
  | ok
  | dbError
  deriving DecidableEq

/-- `MealPlanWorkflow.agent_persist_plan`, restricted to its effect on the
workflow state. With no current user the state passes through; with a
missing plan or user data the retry counter advances (and past the bound,
a failure is counted without an error record); otherwise the attempt
succeeds or the DB exception branch runs (appending an error record once
the bound is exceeded). -/
def agent_persist_plan (max_retries : ℕ) (outcome : PersistOutcome)
    (s : WFState) : WFState :=
  if s.current_user.isNone then s
  else if s.generated_plan.isNone || s.user_data.isNone then
    let s := { s with retry_count := s.retry_count + 1 }
    if s.retry_count ≤ max_retries then s
    else { s with failure_count := s.failure_count + 1, retry_count := 0 }
  else
    match outcome with
    | .ok => { s with success_count := s.success_count + 1, retry_count := 0 }
    | .dbError =>
      let s := { s with retry_count := s.retry_count + 1 }
      if s.retry_count > max_retries then
        { s with failure_count := s.failure_count + 1,
                 errorsLen := s.errorsLen + 1, retry_count := 0 }
      else s

/-- `MealPlanWorkflow.route_next_step`: decision string plus the state
mutations it performs (advancing the user index clears the per-user
fields and resets the retry counter). -/
def route_next_step (max_retries users_len : ℕ) (s : WFState) :
    String × WFState :=
  if 0 < s.retry_count ∧ s.retry_count ≤ max_retries then ("retry", s)
  else
    let s := { s with
      current_user_index := s.current_user_index + 1,
      retry_count := 0,
      current_user := none,
      user_data := none,
      generated_plan := none }
    if s.current_user_index < users_len then ("next_user", s) else ("complete", s)

/-- Effect on the tracked state of one pass through
`aggregate_data → generate_plan → consolidate_list` for a user that is
found: the data-aggregation and generation agents repopulate `user_data`
and `generated_plan` (their internals call the database and the external
LLM and are irrelevant to the retry loop). -/
def repopulate_user_data (s : WFState) : WFState :=
  { s with current_user := some (), user_data := some (), generated_plan := some () }

/-- One `aggregate → … → persist_plan` cycle whose persistence step raises
a DB exception. -/
def failingCycle (max_retries : ℕ) (s : WFState) : WFState :=
  agent_persist_plan max_retries .dbError (repopulate_user_data s)

-- ==================== SCHEDULE TABLE (persist success path) ====================

/-- One row of the `planning_schedule` table. -/
structure ScheduleRow where
  schedule_id : ℕ
  user_id : ℕ
  status : String
  next_plan_date : ℕ
  deriving DecidableEq

/-- The first `UPDATE` of the success path: set every schedule of the user
other than the current one to `INACTIVE`. -/
def deactivate_others (uid sid : ℕ) (db : List ScheduleRow) : List ScheduleRow :=
  db.map fun r =>
    if r.user_id = uid ∧ r.schedule_id ≠ sid then { r with status := "INACTIVE" } else r

/-- The second `UPDATE` of the success path: the current schedule's
`next_plan_date` becomes `datetime.now().date() + timedelta(days=7)`,
i.e. today plus 7 — not the previous `next_plan_date` plus 7. -/
def update_next_date (sid today : ℕ) (db : List ScheduleRow) : List ScheduleRow :=
  db.map fun r =>
    if r.schedule_id = sid then { r with next_plan_date := today + 7 } else r

/-- Database effect of a successful `agent_persist_plan` run. -/
def persist_success_db (uid sid today : ℕ) (db : List ScheduleRow) : List ScheduleRow :=
  update_next_date sid today (deactivate_others uid sid db)

-- ==================== RESPONSE EXTRACTOR ====================

/-- A parsed JSON value (the shape returned by `json.loads`). -/
inductive JsonV where
  | null
  | boolean (b : Bool)
  | num (q : ℚ)
  | str (s : String)
  | arr (xs : List JsonV)
  | obj (kvs : List (String × JsonV))

/-- Index of the first occurrence of `c`. -/
def firstIdxOf (c : Char) (l : List Char) : Option ℕ := l.findIdx? (· = c)

/-- Index of the last occurrence of `c`. -/
def lastIdxOf (c : Char) (l : List Char) : Option ℕ :=
  match (l.reverse.findIdx? (· = c)) with
  | some k => some (l.length - 1 - k)
  | none => none

/-- `re.search(r"open.*close", s, re.DOTALL).group()`: the leftmost match
of the greedy pattern runs from the first `openC` to the last `closeC`
(which must lie strictly after it). -/
def regexSpan (openC closeC : Char) (s : String) : Option String :=
  let cs := s.toList
  match firstIdxOf openC cs, lastIdxOf closeC cs with
  | some i, some j => if i < j then some (String.mk ((cs.drop i).take (j - i + 1))) else none
  | _, _ => none

/-- `MealPlanAgentWithExtraction.extract_json_from_response`
(`utils/agent.py`). `loads` stands for `json.loads` (a stdlib collaborator
modelled as a total function, `none` meaning the parse raised): try the
whole stripped string, then the first `[...]` span, then the first
`{...}` span; every failure is swallowed and `none` returned only when all
attempts fail — the function is total, so no exception reaches the caller. -/
def extract_json_from_response (loads : String → Option JsonV)
    (raw_response : String) : Option JsonV :=
  let cleaned := raw_response.trim
  match loads cleaned with
  | some v => some v
  | none =>
    match (regexSpan '[' ']' cleaned).bind loads with
    | some v => some v
    | none => (regexSpan '\x7b' '\x7d' cleaned).bind loads

-- ==================== CHAT ROUTER (meal_router_agent.py) ====================

/-- A LangChain chat message. -/
inductive Msg where
  | system (content : String)
  | human (content : String)
  | ai (content : String)
  deriving DecidableEq

/-- Modelled from the spec: the learned user-preference payload returned by
`FeedbackAgent.get_user_preferences` (`utils/feedback_agent.py` is not in
the source tree); the router treats it as an opaque object that is only
formatted into prompt text. -/
structure Prefs where
  raw : String
  deriving DecidableEq

/-- The empty preference dict. -/
def Prefs.empty : Prefs := ⟨""⟩

/-- The `new_daily_total` object of a successful adjustment result. -/
structure AdjTotals where
  calories : ℚ
  protein_g : ℚ
  carbohydrates_g : ℚ
  fat_g : ℚ
  fiber_g : ℚ
  deriving DecidableEq

/-- The dict returned by `MealAdjustmentAgent.process_request`. -/
structure AdjResult where
  status : String
  message : String
  new_daily_total : AdjTotals
  deriving DecidableEq

/-- The slice of `user_profile` the router prompts read (each access uses
`.get(key, default)`, folded into the field). -/
structure ChatProfile where
  username : String
  health_goal : String
  dietary_restrictions : String
  food_allergies : String
  deriving DecidableEq

/-- `ChatRouterState` of `meal_router_agent.py`. -/
structure ChatState where
  user_input : String
  user_id : String
  user_profile : ChatProfile
  inventory_summary : String
  meal_plan_summary : String
  history : List Msg
  route : Option String
  retrieved_data : Option String
  user_preferences : Option Prefs
  extracted_feedback : Option (List String)
  response : String
  final_messages : Option (List Msg)
  adjustment_result : Option AdjResult
  monitoring_warnings : Option (List String)

/-- Behaviour of one `chat_model.stream(...)` call: the token sequence it
produces, or the exception it raises. -/
inductive StreamOutcome where
  | tokens (ts : List String)
  | raises (e : String)

/-- External collaborators of the router, bundled: the feedback agent
(not in the source tree, modelled from the spec as functions that return),
the retrieval node's database/LLM work collapsed to the text it stores in
`retrieved_data` (its `try/except` always produces a string), the
adjustment and monitoring agents, the LLM date extraction attempt
(`none` = exception or unparseable reply), the Cortex chat model, and
today's date renderings. -/
structure ChatEnv where
  getUserPreferences : String → Prefs
  formatPreferencesForPrompt : Prefs → String
  extractPreferences : String → String → List String
  retrieveMealsText : String → String → String
  adjust : String → String → String → String → AdjResult
  llmDateExtract : String → Option (Option String × Option String)
  monitorChanges : String → String → List String
  chatModelPresent : Bool
  chatStream : List Msg → StreamOutcome
  todayYMD : String
  todayLong : String

/-- Python string slicing `s[:n]`. -/
def takeStr (n : ℕ) (s : String) : String := String.mk (s.toList.take n)

/-- Python `history[-5:]`. -/
def lastN (n : ℕ) (l : List Msg) : List Msg := l.drop (l.length - n)

/-- Is a message a `HumanMessage`? -/
def isHumanMsg : Msg → Bool
  | .human _ => true
  | _ => false

/-- `node_load_preferences`: skip the lookup when preferences were
pre-loaded. -/
def node_load_preferences (env : ChatEnv) (s : ChatState) : ChatState :=
  if s.user_preferences.isSome then s
  else { s with user_preferences := some (env.getUserPreferences s.user_id) }

/-- Keyword list for meal retrieval. -/
def meal_keywords : List String :=
  ["meal", "recipe", "breakfast", "lunch", "dinner", "snack",
   "what am i eating", "what should i eat", "meal plan",
   "today", "tomorrow", "monday", "tuesday", "wednesday",
   "thursday", "friday", "saturday", "sunday",
   "ingredient", "what can i make", "show me", "get me"]

/-- Keyword list for calorie estimation. -/
def estimation_keywords : List String :=
  ["estimate", "calculate", "how many calories in", "nutritional info for"]

/-- Keyword list for meal adjustment/reporting. -/
def adjustment_keywords : List String :=
  ["add", "remove", "delete", "change", "replace", "swap", "instead",
   "don\x27t want", "ate", "had", "went to",
   "buffet", "restaurant", "eaten", "drank", "consumed"]

/-- The routing decision of `node_route_query` over the lower-cased input:
adjustment keywords plus a meal word (unless a "what" question without an
explicit change verb), then estimation keywords (unless about "my
plan"/"my meal"), then retrieval keywords, else general chat. -/
def routeOf (input : String) : String :=
  let ui := lowerStr input
  let isAdj0 :=
    adjustment_keywords.any (fun k => strContains ui k) &&
    (["breakfast", "lunch", "dinner", "snack", "meal"].any (fun m => strContains ui m))
  let isAdj :=
    isAdj0 &&
    !(strContains ui "what" &&
      !(["change", "replace", "swap", "add", "instead"].any (fun k => strContains ui k)))
  if isAdj then "meal_adjustment"
  else if estimation_keywords.any (fun k => strContains ui k) &&
      !(strContains ui "my plan" || strContains ui "my meal") then
    "calorie_estimation"
  else if meal_keywords.any (fun k => strContains ui k) then
    "meal_retrieval"
  else "general_chat"

/-- `node_route_query`: store the keyword routing decision. -/
def node_route_query (s : ChatState) : ChatState :=
  { s with route := some (routeOf s.user_input) }

/-- `node_retrieve_meals`: the rule-based/LLM/date lookup and formatting is
the collaborator's; the node always stores some text in `retrieved_data`. -/
def node_retrieve_meals (env : ChatEnv) (s : ChatState) : ChatState :=
  { s with retrieved_data := some (env.retrieveMealsText s.user_input s.user_id) }

/-- Month/weekday indicators triggering LLM date extraction. -/
def date_indicators : List String :=
  ["jan", "feb", "mar", "apr", "may", "jun", "jul", "aug", "sep", "oct",
   "nov", "dec", "tomorrow", "yesterday", "next", "last", "monday",
   "tuesday", "wednesday", "thursday", "friday", "saturday", "sunday"]

/-- `node_adjust_meal`: rule-based meal type (default lunch), today's date,
optional LLM date/meal-type extraction, then the adjustment agent; the
result's message becomes the response in both branches. -/
def node_adjust_meal (env : ChatEnv) (s : ChatState) : ChatState :=
  let ui := lowerStr s.user_input
  let meal_type :=
    if strContains ui "breakfast" then "breakfast"
    else if strContains ui "dinner" then "dinner"
    else if strContains ui "snack" then "snacks"
    else "lunch"
  let date := env.todayYMD
  let dm :=
    if date_indicators.any (fun k => strContains ui k) && env.chatModelPresent then
      match env.llmDateExtract s.user_input with
      | some (d?, m?) => (d?.getD date, m?.getD meal_type)
      | none => (date, meal_type)
    else (date, meal_type)
  let result := env.adjust s.user_input s.user_id dm.1 dm.2
  { s with adjustment_result := some result, response := result.message,
           final_messages := none }

/-- `node_monitor_changes`: warnings are produced only after a successful
adjustment. -/
def node_monitor_changes (env : ChatEnv) (s : ChatState) : ChatState :=
  match s.adjustment_result with
  | some r =>
    if r.status == "success" then
      { s with monitoring_warnings := some (env.monitorChanges s.user_id env.todayYMD) }
    else s
  | none => s

/-- `node_general_chat`: build the system prompt, filter the last five
history messages so the first kept one is human, and prepare the message
list; the response field is not touched. -/
def node_general_chat (env : ChatEnv) (s : ChatState) : ChatState :=
  let pref_text := env.formatPreferencesForPrompt (s.user_preferences.getD Prefs.empty)
  let system_prompt :=
    "You are Meal Mind AI, a helpful nutrition and meal planning assistant.\n\n" ++
    "TODAY\x27S DATE: " ++ env.todayLong ++ "\n\n" ++
    "USER PROFILE:\n" ++
    "- Name: " ++ s.user_profile.username ++ "\n" ++
    "- Goal: " ++ s.user_profile.health_goal ++ "\n" ++
    "- Dietary Restrictions: " ++ s.user_profile.dietary_restrictions ++ "\n" ++
    "- Allergies: " ++ s.user_profile.food_allergies ++ "\n\n" ++
    "USER PREFERENCES (LEARNED):\n" ++ pref_text ++ "\n\n" ++
    "CURRENT INVENTORY:\n" ++ takeStr 500 s.inventory_summary ++ "...\n\n" ++
    "MEAL PLAN SUMMARY:\n" ++ takeStr 300 s.meal_plan_summary ++ "...\n\n" ++
    "YOUR ROLE:\n" ++
    "- Provide nutrition advice and cooking tips considering user preferences\n" ++
    "- Answer health and wellness questions\n" ++
    "- Be encouraging and supportive\n" ++
    "- Keep responses concise and helpful\n" ++
    "- IMPORTANT: Respect user dislikes and preferences in your suggestions\n" ++
    "- CRITICAL: STRICTLY respect the user\x27s dietary restrictions and allergies. NEVER suggest foods they cannot eat.\n"
  let recent := lastN 5 s.history
  let start := (recent.findIdx? isHumanMsg).getD recent.length
  let messages := [Msg.system system_prompt] ++ recent.drop start ++ [Msg.human s.user_input]
  { s with final_messages := some messages }

/-- The calorie-estimation system prompt. -/
def estimationSystemPrompt : String :=
  "You are an expert nutritionist and calorie estimator. \n" ++
  "The user will describe a meal (e.g., from a buffet, restaurant, or home cooking).\n\n" ++
  "Your task is to:\n" ++
  "1. Analyze the food items described.\n" ++
  "2. Estimate portion sizes if not specified (make reasonable assumptions based on standard servings).\n" ++
  "3. Calculate the approximate Calories and Macronutrients (Protein, Carbs, Fat) for each item and the total.\n" ++
  "4. Provide a clear breakdown.\n" ++
  "5. Offer a brief, non-judgmental health tip regarding this meal.\n\n" ++
  "Format the output using Markdown:\n" ++
  "- Use bold for totals.\n" ++
  "- Use a list for the breakdown.\n"

/-- `node_estimate_calories`: prepare the estimation messages; the response
field is not touched. -/
def node_estimate_calories (s : ChatState) : ChatState :=
  { s with final_messages := some [Msg.system estimationSystemPrompt, Msg.human s.user_input] }

/-- `node_generate_response`: an adjustment result is rendered as a static
reply (with new daily totals and health alerts on success); non-empty
retrieved data is wrapped into messages for the LLM; otherwise the state
passes through unchanged. -/
def node_generate_response (env : ChatEnv) (s : ChatState) : ChatState :=
  match s.adjustment_result with
  | some result =>
    let warnings := s.monitoring_warnings.getD []
    let response :=
      if result.status == "success" then
        "✅ " ++ result.message ++ "\n\n" ++
        "**New Daily Total:**\n" ++
        "- Calories: " ++ toString result.new_daily_total.calories ++ " kcal\n" ++
        "- Protein: " ++ toString result.new_daily_total.protein_g ++ "g\n" ++
        "- Carbs: " ++ toString result.new_daily_total.carbohydrates_g ++ "g\n" ++
        "- Fat: " ++ toString result.new_daily_total.fat_g ++ "g\n" ++
        "- Fiber: " ++ toString result.new_daily_total.fiber_g ++ "g\n" ++
        (if warnings.isEmpty then ""
         else "\n**Health Alerts:**\n" ++ String.join (warnings.map (fun w => w ++ "\n")))
      else "❌ " ++ result.message
    { s with response := response, final_messages := none }
  | none =>
    match s.retrieved_data with
    | some rd =>
      if rd == "" then s
      else
        let system_prompt :=
          "You are Meal Mind AI. The user asked about their meals and we retrieved this data:\n\n" ++
          "TODAY\x27S DATE: " ++ env.todayLong ++ "\n\n" ++ rd ++ "\n\n" ++
          "USER PROFILE:\n" ++
          "- Goal: " ++ s.user_profile.health_goal ++ "\n" ++
          "- Dietary Restrictions: " ++ s.user_profile.dietary_restrictions ++ "\n" ++
          "- Allergies: " ++ s.user_profile.food_allergies ++ "\n\n" ++
          "Generate a helpful, conversational response that:\n" ++
          "1. Presents the meal information clearly\n" ++
          "2. Relates it to their health goals\n" ++
          "3. Offers any relevant tips or suggestions\n" ++
          "4. Keep it concise and friendly\n" ++
          "5. CRITICAL: STRICTLY respect the user\x27s dietary restrictions and allergies. NEVER suggest foods they cannot eat.\n"
        { s with final_messages := some [Msg.system system_prompt, Msg.human s.user_input] }
    | none => s

/-- `node_extract_feedback`. -/
def node_extract_feedback (env : ChatEnv) (s : ChatState) : ChatState :=
  { s with extracted_feedback := some (env.extractPreferences s.user_input s.user_id) }

/-- The compiled graph's execution, as the ordered list of
(node name, node output state) pairs that `app.stream` produces:
`load_preferences → route_query`, then the conditional branch, each branch
ending in `extract_feedback`. -/
def chatTrace (env : ChatEnv) (s0 : ChatState) : List (String × ChatState) :=
  let s1 := node_load_preferences env s0
  let s2 := node_route_query s1
  if s2.route == some "meal_retrieval" then
    let s3 := node_retrieve_meals env s2
    let s4 := node_generate_response env s3
    let s5 := node_extract_feedback env s4
    [("load_preferences", s1), ("route_query", s2), ("retrieve_meals", s3),
     ("generate_response", s4), ("extract_feedback", s5)]
  else if s2.route == some "calorie_estimation" then
    let s3 := node_estimate_calories s2
    let s4 := node_extract_feedback env s3
    [("load_preferences", s1), ("route_query", s2), ("estimate_calories", s3),
     ("extract_feedback", s4)]
  else if s2.route == some "meal_adjustment" then
    let s3 := node_adjust_meal env s2
    let s4 := node_monitor_changes env s3
    let s5 := node_generate_response env s4
    let s6 := node_extract_feedback env s5
    [("load_preferences", s1), ("route_query", s2), ("adjust_meal", s3),
     ("monitor_changes", s4), ("generate_response", s5), ("extract_feedback", s6)]
  else
    let s3 := node_general_chat env s2
    let s4 := node_extract_feedback env s3
    [("load_preferences", s1), ("route_query", s2), ("general_chat", s3),
     ("extract_feedback", s4)]

/-- Final state of `app.invoke`. -/
def chatFinalState (env : ChatEnv) (s0 : ChatState) : ChatState :=
  match (chatTrace env s0).getLast? with
  | some kv => kv.2
  | none => s0

/-- Initial `ChatRouterState` built by the run methods. -/
def initChatState (ui uid : String) (profile : ChatProfile)
    (inv mps : String) (history : List Msg) (prefs : Option Prefs) : ChatState :=
  { user_input := ui, user_id := uid, user_profile := profile,
    inventory_summary := inv, meal_plan_summary := mps, history := history,
    route := none, retrieved_data := none, user_preferences := prefs,
    extracted_feedback := none, response := "", final_messages := none,
    adjustment_result := none, monitoring_warnings := none }

/-- `MealRouterAgent.run_chat`: invoke the graph and return the state's
`response` field. No LLM call happens on this path. -/
def run_chat (env : ChatEnv) (user_input user_id : String) (history : List Msg)
    (profile : ChatProfile) (inv mps : String) : String :=
  (chatFinalState env (initChatState user_input user_id profile inv mps history none)).response

/-- The status string yielded for one graph step, when the step has one in
`run_chat_stream`'s cascade (neither `general_chat` nor `generate_response`
yields a status). -/
def statusFor (key : String) (value : ChatState) : Option String :=
  if key == "load_preferences" then some "__STATUS__: Loading your preferences..."
  else if key == "extract_feedback" then some "__STATUS__: Analyzing your input..."
  else if key == "route_query" then
    some (if value.route == some "meal_retrieval" then "__STATUS__: Searching your meal plan..."
      else if value.route == some "calorie_estimation" then "__STATUS__: Analyzing food items..."
      else if value.route == some "meal_adjustment" then "__STATUS__: Processing meal adjustment..."
      else "__STATUS__: Thinking...")
  else if key == "retrieve_meals" then some "__STATUS__: Preparing response..."
  else if key == "estimate_calories" then some "__STATUS__: Preparing response..."
  else if key == "adjust_meal" then some "__STATUS__: Verifying health constraints..."
  else if key == "monitor_changes" then some "__STATUS__: Preparing response..."
  else none

/-- Accumulator of the streaming loop: yielded strings so far, the running
final response, whether a response was yielded, and the prepared messages. -/
structure StreamAcc where
  yields : List String
  final_response : String
  response_yielded : Bool
  final_messages : Option (List Msg)

/-- First chunk of the loop body: record non-empty prepared messages. -/
def streamRecordMessages (acc : StreamAcc) (v : ChatState) : StreamAcc :=
  match v.final_messages with
  | some l => if l.isEmpty then acc else { acc with final_messages := some l }
  | none => acc

/-- Second chunk: yield a non-empty response field, marking it yielded. -/
def streamYieldResponse (acc : StreamAcc) (v : ChatState) : StreamAcc :=
  if v.response ≠ "" then
    { acc with yields := acc.yields ++ [v.response],
               final_response := v.response, response_yielded := true }
  else acc

/-- Third chunk: yield the step's status if no response was yielded yet. -/
def streamYieldStatus (acc : StreamAcc) (kv : String × ChatState) : StreamAcc :=
  if acc.response_yielded then acc
  else
    match statusFor kv.1 kv.2 with
    | some st => { acc with yields := acc.yields ++ [st] }
    | none => acc

/-- One iteration of `for output in app.stream(...)`. -/
def streamStep (acc : StreamAcc) (kv : String × ChatState) : StreamAcc :=
  streamYieldStatus (streamYieldResponse (streamRecordMessages acc kv.2) kv.2) kv

/-- One token of `chat_model.stream`: only truthy (non-empty) content is
yielded and appended, and only then is the response marked yielded. -/
def tokenStep (a : StreamAcc) (t : String) : StreamAcc :=
  if t ≠ "" then
    { a with yields := a.yields ++ [t], final_response := a.final_response ++ t,
             response_yielded := true }
  else a

/-- The LLM streaming phase: when messages were prepared and no response
was yielded, stream the model's tokens (or the offline notice or the error
string). -/
def streamPhase2 (env : ChatEnv) (acc : StreamAcc) : StreamAcc :=
  match acc.final_messages, acc.response_yielded with
  | some msgs, false =>
    if env.chatModelPresent then
      match env.chatStream msgs with
      | .tokens ts => ts.foldl tokenStep acc
      | .raises e =>
        { acc with yields := acc.yields ++ ["Error generating response: " ++ e],
                   final_response := "Error generating response: " ++ e }
    else
      { acc with yields := acc.yields ++ ["I\x27m currently in offline mode."],
                 final_response := "I\x27m currently in offline mode." }
  | _, _ => acc

/-- The terminal fallback: yield an apology when nothing was produced. -/
def streamPhase3 (acc : StreamAcc) : List String :=
  if !acc.response_yielded && acc.final_response == "" then
    acc.yields ++ ["I couldn\x27t generate a response. Please try again."]
  else acc.yields

/-- `MealRouterAgent.run_chat_stream`, as the full sequence of strings the
generator yields: the graph phase, then the LLM streaming phase, then the
terminal fallback when nothing was produced. -/
def run_chat_stream (env : ChatEnv) (user_input user_id : String)
    (history : List Msg) (profile : ChatProfile) (inv mps : String)
    (user_preferences : Option Prefs) : List String :=
  let trace := chatTrace env
    (initChatState user_input user_id profile inv mps history user_preferences)
  streamPhase3 (streamPhase2 env (trace.foldl streamStep ⟨[], "", false, none⟩))

-- ==================== SHARED LEMMAS ====================

lemma validate_eq_true_iff (p : PlanDoc) :
    validate_meal_plan_structure p = true ↔
      p.user_summary = true ∧ p.metadata = true ∧ p.recommendations.isSome = true ∧
      ∃ mp ds, p.meal_plan = some mp ∧ mp.days = some ds ∧ 1 ≤ ds.length := by
  unfold validate_meal_plan_structure
  cases hus : p.user_summary <;> cases hmd : p.metadata <;>
    cases hmp : p.meal_plan <;> cases hrec : p.recommendations <;> simp
  case true.true.some.some mp _ =>
    cases hd : mp.days <;> simp

lemma mergeShoppingStep_meal_plan (p1 p2 : PlanDoc) :
    (mergeShoppingStep p1 p2).meal_plan = p1.meal_plan := by
  unfold mergeShoppingStep
  cases p1.recommendations with
  | none => rfl
  | some r1 =>
    obtain ⟨sls⟩ := r1
    cases sls <;> cases p2.recommendations.bind (·.shopping_list_summary) <;> rfl

lemma recomputeWeekSummary_planDays (p : PlanDoc) (inv : ℕ) :
    planDays (recomputeWeekSummary p inv) = planDays p := by
  unfold recomputeWeekSummary
  by_cases he : (planDays p).isEmpty = true
  · simp [he]
  · simp only [he, ite_false, Bool.false_eq_true, if_false]
    cases hmp : p.meal_plan with
    | none => rfl
    | some mp =>
      cases hws : mp.week_summary with
      | none => simp [hws]
      | some ws => simp [hws, planDays, hmp]

lemma fixDaysFrom_length (base i0 : ℕ) (ds : List DayEntry) :
    (fixDaysFrom base i0 ds).length = ds.length := by
  induction ds generalizing i0 with
  | nil => rfl
  | cons d tl ih => simp [fixDaysFrom, ih]

lemma fixDaysFrom_get (base : ℕ) (ds : List DayEntry) :
    ∀ (i0 i : ℕ) (h : i < (fixDaysFrom base i0 ds).length),
      ((fixDaysFrom base i0 ds).get ⟨i, h⟩).day = (i0 : ℤ) + i + 1 ∧
      ((fixDaysFrom base i0 ds).get ⟨i, h⟩).day_name = weekdayName (base + i0 + i) := by
  induction ds with
  | nil => intro i0 i h; simp [fixDaysFrom] at h
  | cons d tl ih =>
    intro i0 i h
    cases i with
    | zero => constructor <;> simp [fixDaysFrom]
    | succ j =>
      have h' : j < (fixDaysFrom base (i0 + 1) tl).length := by
        simpa [fixDaysFrom] using h
      have := ih (i0 + 1) j h'
      constructor
      · have e1 : ((fixDaysFrom base i0 (d :: tl)).get ⟨j + 1, h⟩) =
            (fixDaysFrom base (i0 + 1) tl).get ⟨j, h'⟩ := rfl
        rw [e1, this.1]; push_cast; ring
      · have e1 : ((fixDaysFrom base i0 (d :: tl)).get ⟨j + 1, h⟩) =
            (fixDaysFrom base (i0 + 1) tl).get ⟨j, h'⟩ := rfl
        rw [e1, this.2]; congr 1; omega

lemma planDays_mergeDaysStep (a b : PlanDoc) (mpa : MealPlanSection)
    (dsa : List DayEntry) (hmp : a.meal_plan = some mpa) (hds : mpa.days = some dsa) :
    planDays (mergeDaysStep a b) = dsa ++ planDays b := by
  unfold mergeDaysStep
  simp [planDays, hmp, hds]

lemma mergeDaysStep_no_mealplan (a b : PlanDoc) (hmp : a.meal_plan = none) :
    mergeDaysStep a b = a := by
  unfold mergeDaysStep; rw [hmp]

lemma mergeDaysStep_no_days (a b : PlanDoc) (mpa : MealPlanSection)
    (hmp : a.meal_plan = some mpa) (hds : mpa.days = none) :
    mergeDaysStep a b = a := by
  unfold mergeDaysStep; simp [hmp, hds]

lemma planDays_congr (p q : PlanDoc) (h : p.meal_plan = q.meal_plan) :
    planDays p = planDays q := by
  simp [planDays, h]

lemma planDays_mergedOf (a b : PlanDoc) (inv : ℕ)
    (hv : validate_meal_plan_structure (mergedOf a b inv) = true) :
    planDays (mergedOf a b inv) = planDays a ++ planDays b := by
  have hchain : planDays (mergedOf a b inv) = planDays (mergeDaysStep a b) := by
    unfold mergedOf
    rw [recomputeWeekSummary_planDays,
      planDays_congr _ _ (mergeShoppingStep_meal_plan _ _)]
  obtain ⟨-, -, -, mp, ds, hmp, hds, hlen⟩ := (validate_eq_true_iff _).mp hv
  have hmds : planDays (mergedOf a b inv) = ds := by simp [planDays, hmp, hds]
  have hne : planDays (mergedOf a b inv) ≠ [] := by
    rw [hmds]; intro hnil; simp [hnil] at hlen
  cases hma : a.meal_plan with
  | none =>
    exfalso
    apply hne
    rw [hchain, mergeDaysStep_no_mealplan a b hma]
    simp [planDays, hma]
  | some mpa =>
    cases hdsa : mpa.days with
    | none =>
      exfalso
      apply hne
      rw [hchain, mergeDaysStep_no_days a b mpa hma hdsa]
      simp [planDays, hma, hdsa]
    | some dsa =>
      rw [hchain, planDays_mergeDaysStep a b mpa dsa hma hdsa]
      congr 1
      simp [planDays, hma, hdsa]

lemma agent_generate_result_of_valid (mock a b : PlanDoc) (inv : ℕ)
    (npd : Option ℕ) (today : ℕ)
    (hv : validate_meal_plan_structure (mergedOf a b inv) = true) :
    agent_generate_result mock (some a) (some b) inv npd today =
      fix_day_names_with_start_date (mergedOf a b inv) (some (npd.getD today)) today := by
  unfold agent_generate_result agent_generate_merge
  simp [hv]

lemma planDays_fix (p : PlanDoc) (sd : Option ℕ) (today : ℕ)
    (mp : MealPlanSection) (ds : List DayEntry)
    (hmp : p.meal_plan = some mp) (hds : mp.days = some ds) :
    planDays (fix_day_names_with_start_date p sd today) =
      fixDaysFrom (sd.getD today) 0 ds := by
  unfold fix_day_names_with_start_date
  simp [planDays, hmp, hds]

-- ==================== CLAIM C1 ====================

/-- C1: for every extracted batch pair whose merged plan passes structural
validation, the merged `meal_plan.days` is batch A's days followed by batch
B's days (so exactly `len(days_a)+len(days_b)` entries), and after the
day-name fix entry `i` (0-based) has `day = i+1` and `day_name` equal to
the weekday of `start_date + i`, where the start date is the schedule's
`next_plan_date` or today when absent. -/
theorem C1_merged_days_and_day_names (a b : PlanDoc) (inv : ℕ)
    (npd : Option ℕ) (today : ℕ) (mock : PlanDoc)
    (hv : validate_meal_plan_structure (mergedOf a b inv) = true) :
    planDays (mergedOf a b inv) = planDays a ++ planDays b ∧
    (planDays (agent_generate_result mock (some a) (some b) inv npd today)).length =
      (planDays a).length + (planDays b).length ∧
    ∀ (i : ℕ) (h : i < (planDays (agent_generate_result mock (some a) (some b) inv npd today)).length),
      ((planDays (agent_generate_result mock (some a) (some b) inv npd today)).get ⟨i, h⟩).day =
        (i : ℤ) + 1 ∧
      ((planDays (agent_generate_result mock (some a) (some b) inv npd today)).get ⟨i, h⟩).day_name =
        weekdayName (npd.getD today + i) := by
  obtain ⟨-, -, -, mp, ds, hmp, hds, hlen⟩ := (validate_eq_true_iff _).mp hv
  have h1 := planDays_mergedOf a b inv hv
  have hres := agent_generate_result_of_valid mock a b inv npd today hv
  have hmds : planDays (mergedOf a b inv) = ds := by simp [planDays, hmp, hds]
  have hfix : planDays (agent_generate_result mock (some a) (some b) inv npd today) =
      fixDaysFrom (npd.getD today) 0 ds := by
    rw [hres]; exact planDays_fix _ _ _ mp ds hmp hds
  refine ⟨h1, ?_, ?_⟩
  · rw [hfix, fixDaysFrom_length, ← hmds, h1, List.length_append]
  · rw [hfix]
    intro i h
    obtain ⟨hd, hn⟩ := fixDaysFrom_get (npd.getD today) ds 0 i h
    refine ⟨?_, ?_⟩
    · rw [hd]; ring
    · rw [hn]; norm_num

-- Concrete sample documents used by witnesses.

/-- A sample day with the given (possibly wrong) name and nutrition. -/
def wDay (nm : String) (c p cb f fb : ℚ) : DayEntry :=
  ⟨0, nm, some ⟨some c, some p, some cb, some f, some fb⟩⟩

/-- Batch A's sample shopping summary. -/
def wSLA : ShoppingList :=
  ⟨some [⟨some "Chicken", some (.num 500), some (.num 500)⟩],
   none, none, none, none, none, none, some (.num 20), some 3, some 5⟩

/-- Batch B's sample shopping summary. -/
def wSLB : ShoppingList :=
  ⟨some [⟨some "chicken", some (.num 200), some (.num 300)⟩],
   none, none, none, none, none, none, some (.num 10), some 2, some 4⟩

/-- A sample week summary to be overwritten by the recomputation. -/
def wWS : WeekSummary := ⟨some 0, some 0, some 0, some 0, some 0, some 0⟩

/-- Batch A sample plan (two days). -/
def wPlanA : PlanDoc :=
  ⟨true, some ⟨some [wDay "Funday" 400 30 40 10 5, wDay "X" 600 20 50 15 6], some wWS⟩,
   some ⟨some wSLA⟩, true⟩

/-- Batch B sample plan (one day). -/
def wPlanB : PlanDoc :=
  ⟨true, some ⟨some [wDay "Y" 500 25 45 12 7], none⟩, some ⟨some wSLB⟩, true⟩

/-- A stand-in for the mock fallback plan. -/
def wMock : PlanDoc :=
  ⟨true, some ⟨some [wDay "M" 100 10 10 10 10], none⟩, some ⟨none⟩, true⟩

/-- Witness for C1 at a concrete 2-day/1-day batch pair. -/
theorem C1_witness :
    validate_meal_plan_structure (mergedOf wPlanA wPlanB 4) = true ∧
    planDays (mergedOf wPlanA wPlanB 4) = planDays wPlanA ++ planDays wPlanB ∧
    (planDays (agent_generate_result wMock (some wPlanA) (some wPlanB) 4 (some 3) 0)).length =
      (planDays wPlanA).length + (planDays wPlanB).length :=
  ⟨by decide,
   (C1_merged_days_and_day_names wPlanA wPlanB 4 (some 3) 0 wMock (by decide)).1,
   (C1_merged_days_and_day_names wPlanA wPlanB 4 (some 3) 0 wMock (by decide)).2.1⟩

-- ==================== CLAIM C2 ====================

/-- C2: in the merged plan's week summary, `average_daily_calories` is the
integer part (Python `int()`) of the mean of the per-day calories over all
merged days, and the four macro averages are the means rounded to one
decimal; the divisor is the actual number of merged days (not a hard-coded
7) and a missing per-day field counts as 0 (`meanField`). Stated for any
merged plan that carries a `week_summary` (the recomputation writes into
`.get("week_summary", {})`, so without one the writes are lost). -/
theorem C2_week_summary_averages (a b : PlanDoc) (inv : ℕ)
    (mp : MealPlanSection) (ds : List DayEntry) (ws : WeekSummary)
    (hmp : (mergeShoppingStep (mergeDaysStep a b) b).meal_plan = some mp)
    (hds : mp.days = some ds) (hne : ds ≠ []) (hws : mp.week_summary = some ws) :
    ∃ ws2, (mergedOf a b inv).meal_plan.bind (·.week_summary) = some ws2 ∧
      ws2.average_daily_calories = some ((pytrunc (meanField (·.calories) ds) : ℚ)) ∧
      ws2.average_daily_protein = some (pyRound1 (meanField (·.protein_g) ds)) ∧
      ws2.average_daily_carbs = some (pyRound1 (meanField (·.carbohydrates_g) ds)) ∧
      ws2.average_daily_fat = some (pyRound1 (meanField (·.fat_g) ds)) ∧
      ws2.average_daily_fiber = some (pyRound1 (meanField (·.fiber_g) ds)) := by
  have hpd : planDays (mergeShoppingStep (mergeDaysStep a b) b) = ds := by
    simp [planDays, hmp, hds]
  have hie : ds.isEmpty = false := by
    cases ds with
    | nil => exact absurd rfl hne
    | cons x xs => rfl
  simp only [mergedOf, recomputeWeekSummary, hpd, hie, Bool.false_eq_true, if_false,
    hmp, hws]
  by_cases hinv : 0 < inv <;>
    simp only [hinv, if_true, if_false, ite_true, ite_false] <;>
    exact ⟨_, rfl, rfl, rfl, rfl, rfl, rfl⟩

/-- Witness for C2 at the concrete batch pair: three merged days. -/
theorem C2_witness :
    ∃ ws2, (mergedOf wPlanA wPlanB 4).meal_plan.bind (·.week_summary) = some ws2 ∧
      ws2.average_daily_calories = some ((pytrunc (meanField (·.calories)
        [wDay "Funday" 400 30 40 10 5, wDay "X" 600 20 50 15 6, wDay "Y" 500 25 45 12 7]) : ℚ)) ∧
      ws2.average_daily_protein = some (pyRound1 (meanField (·.protein_g)
        [wDay "Funday" 400 30 40 10 5, wDay "X" 600 20 50 15 6, wDay "Y" 500 25 45 12 7])) ∧
      ws2.average_daily_carbs = some (pyRound1 (meanField (·.carbohydrates_g)
        [wDay "Funday" 400 30 40 10 5, wDay "X" 600 20 50 15 6, wDay "Y" 500 25 45 12 7])) ∧
      ws2.average_daily_fat = some (pyRound1 (meanField (·.fat_g)
        [wDay "Funday" 400 30 40 10 5, wDay "X" 600 20 50 15 6, wDay "Y" 500 25 45 12 7])) ∧
      ws2.average_daily_fiber = some (pyRound1 (meanField (·.fiber_g)
        [wDay "Funday" 400 30 40 10 5, wDay "X" 600 20 50 15 6, wDay "Y" 500 25 45 12 7])) :=
  C2_week_summary_averages wPlanA wPlanB 4
    ⟨some [wDay "Funday" 400 30 40 10 5, wDay "X" 600 20 50 15 6, wDay "Y" 500 25 45 12 7],
     some wWS⟩
    [wDay "Funday" 400 30 40 10 5, wDay "X" 600 20 50 15 6, wDay "Y" 500 25 45 12 7]
    wWS (by decide) (by decide) (by decide) (by decide)

-- ==================== CLAIM C3 ====================

lemma rfloor_eq_floor (q : ℚ) : rfloor q = ⌊q⌋ := Rat.floor_def.symm

lemma roundHalfEven_le_intCast (q : ℚ) (z : ℤ) (h : q ≤ (z : ℚ)) :
    roundHalfEven q ≤ z := by
  unfold roundHalfEven
  simp only [rfloor_eq_floor]
  have hle : ⌊q⌋ ≤ z := by
    calc ⌊q⌋ ≤ ⌊(z : ℚ)⌋ := Int.floor_le_floor h
    _ = z := Int.floor_intCast z
  split_ifs with h1 h2 h3
  · exact hle
  · have hhalf : (1 : ℚ)/2 ≤ q - ⌊q⌋ := le_of_not_lt h1
    have hq : (⌊q⌋ : ℚ) < q := by linarith
    have hz : (⌊q⌋ : ℚ) < (z : ℚ) := lt_of_lt_of_le hq h
    have : ⌊q⌋ < z := by exact_mod_cast hz
    omega
  · exact hle
  · have hhalf : (1 : ℚ)/2 ≤ q - ⌊q⌋ := le_of_not_lt h1
    have hq : (⌊q⌋ : ℚ) < q := by linarith
    have hz : (⌊q⌋ : ℚ) < (z : ℚ) := lt_of_lt_of_le hq h
    have : ⌊q⌋ < z := by exact_mod_cast hz
    omega

lemma roundHalfEven_nonneg (q : ℚ) (h : 0 ≤ q) : 0 ≤ roundHalfEven q := by
  unfold roundHalfEven
  simp only [rfloor_eq_floor]
  have h0 : 0 ≤ ⌊q⌋ := Int.floor_nonneg.mpr h
  split_ifs <;> omega

lemma pyRound1_le_100 (q : ℚ) (h : q ≤ 100) : pyRound1 q ≤ 100 := by
  unfold pyRound1
  have h10 : 10 * q ≤ ((1000 : ℤ) : ℚ) := by push_cast; linarith
  have hr := roundHalfEven_le_intCast (10 * q) 1000 h10
  have hrq : ((roundHalfEven (10 * q) : ℤ) : ℚ) ≤ 1000 := by exact_mod_cast hr
  linarith

lemma pyRound1_nonneg (q : ℚ) (h : 0 ≤ q) : 0 ≤ pyRound1 q := by
  unfold pyRound1
  have hr := roundHalfEven_nonneg (10 * q) (by linarith)
  have hrq : (0 : ℚ) ≤ ((roundHalfEven (10 * q) : ℤ) : ℚ) := by exact_mod_cast hr
  linarith

/-- A merged plan whose shopping summary carries a negative
`total_items_from_inventory` (as an adversarial agent output can). -/
def cexUtilA : PlanDoc :=
  ⟨true, some ⟨some [wDay "D" 100 10 10 10 10], some wWS⟩,
   some ⟨some ⟨none, none, none, none, none, none, none, some (.num 0), some (-50), some 0⟩⟩,
   true⟩

/-- Batch B partner for the utilization counterexample. -/
def cexUtilB : PlanDoc := ⟨true, some ⟨some [], none⟩, none, true⟩

/-- C3 counterexample: the recomputed `inventory_utilization_rate` of a
merged plan with one inventory row and a stored items-used count of `-50`
is `-5000`, far below 0 — the code clamps only the upper bound
(`min(rate, 100)`), so the claimed interval `[0, 100]` fails for raw ratios
below 0%. -/
theorem C3_counterexample :
    ((mergedOf cexUtilA cexUtilB 1).meal_plan.bind (·.week_summary)).bind
      (·.inventory_utilization_rate) = some (-5000) ∧
    ¬(0 ≤ (-5000 : ℚ)) := by
  constructor
  · simp only [mergedOf, recomputeWeekSummary, mergeShoppingStep, mergeDaysStep,
      cexUtilA, cexUtilB, planDays, itemsUsedOf, wDay, wWS]
    norm_num [pyRound1, roundHalfEven, rfloor]
  · norm_num

/-- C3 amended: the recomputed utilization rate is `0` on an empty
inventory and `round(min(ratio, 100), 1)` otherwise, hence always at most
100; it is nonnegative whenever the stored items-used count is
nonnegative, but a negative stored count produces a negative rate (there
is no lower clamp). -/
theorem C3_utilization_amended (p : PlanDoc) (inv : ℕ)
    (mp : MealPlanSection) (ds : List DayEntry) (ws : WeekSummary)
    (hmp : p.meal_plan = some mp) (hds : mp.days = some ds) (hne : ds ≠ [])
    (hws : mp.week_summary = some ws) :
    ∃ r, ((recomputeWeekSummary p inv).meal_plan.bind (·.week_summary)).bind
        (·.inventory_utilization_rate) = some r ∧
      r ≤ 100 ∧
      (inv = 0 → r = 0) ∧
      (0 < inv → r = pyRound1 (min ((itemsUsedOf p : ℚ) / (inv : ℚ) * 100) 100)) ∧
      (0 ≤ itemsUsedOf p → 0 ≤ r) := by
  have hpd : planDays p = ds := by simp [planDays, hmp, hds]
  have hie : ds.isEmpty = false := by
    cases ds with
    | nil => exact absurd rfl hne
    | cons x xs => rfl
  simp only [recomputeWeekSummary, hpd, hie, Bool.false_eq_true, if_false, hmp, hws]
  by_cases hinv : 0 < inv
  · simp only [hinv, if_true, ite_true]
    refine ⟨_, rfl, ?_, ?_, fun _ => rfl, ?_⟩
    · exact pyRound1_le_100 _ (min_le_right _ _)
    · intro h0; omega
    · intro hiu
      apply pyRound1_nonneg
      apply le_min
      · have hq : (0 : ℚ) ≤ (itemsUsedOf p : ℚ) := by exact_mod_cast hiu
        have hqi : (0 : ℚ) ≤ (inv : ℚ) := by positivity
        have := div_nonneg hq hqi
        linarith
      · norm_num
  · simp only [hinv, if_false, ite_false]
    exact ⟨0, rfl, by norm_num, fun _ => rfl, fun h => h.elim, fun _ => le_refl 0⟩

/-- Witness for the amended C3 at the concrete counterexample plan. -/
theorem C3_amended_witness :
    ∃ r, ((recomputeWeekSummary cexUtilA 1).meal_plan.bind (·.week_summary)).bind
        (·.inventory_utilization_rate) = some r ∧
      r ≤ 100 ∧
      ((1 : ℕ) = 0 → r = 0) ∧
      (0 < (1 : ℕ) → r = pyRound1 (min ((itemsUsedOf cexUtilA : ℚ) / ((1 : ℕ) : ℚ) * 100) 100)) ∧
      (0 ≤ itemsUsedOf cexUtilA → 0 ≤ r) :=
  C3_utilization_amended cexUtilA 1 ⟨some [wDay "D" 100 10 10 10 10], some wWS⟩
    [wDay "D" 100 10 10 10 10] wWS (by decide) (by decide) (by decide) (by decide)

-- ==================== CLAIM C4 ====================

lemma lastIdxWith_lt_length (p : SItem → Bool) (l : List SItem) (i : ℕ)
    (h : lastIdxWith p l = some i) : i < l.length := by
  induction l generalizing i with
  | nil => simp [lastIdxWith] at h
  | cons x xs ih =>
    simp only [lastIdxWith] at h
    cases hx : lastIdxWith p xs with
    | some j =>
      rw [hx] at h
      injection h with h
      subst h
      have := ih j hx
      simp only [List.length_cons]
      omega
    | none =>
      rw [hx] at h
      by_cases hp : p x
      · simp [hp] at h
        subst h
        simp
      · simp [hp] at h

lemma mergeCategories_totals (sl1 sl2 : ShoppingList) :
    (mergeCategories sl1 sl2).total_estimated_cost = sl1.total_estimated_cost ∧
    (mergeCategories sl1 sl2).total_items_from_inventory = sl1.total_items_from_inventory ∧
    (mergeCategories sl1 sl2).total_items_to_purchase = sl1.total_items_to_purchase := by
  obtain ⟨p2, d2, a2, g2, v2, f2, y2, c2, i2, u2⟩ := sl2
  unfold mergeCategories mergeCatField
  cases p2 <;> cases d2 <;> cases a2 <;> cases g2 <;> cases v2 <;> cases f2 <;> cases y2 <;>
    exact ⟨rfl, rfl, rfl⟩

/-- Batch A's item, named with no trailing whitespace. -/
def cexItemA : SItem := ⟨some "Milk", some (.num 2), some (.num 2)⟩

/-- Batch B's item: the same name up to case and a trailing space. -/
def cexItemB : SItem := ⟨some "milk ", some (.num 3), some (.num 3)⟩

/-- C4 counterexample: the merge keys items by `name.lower()` only — no
whitespace normalization — so two items whose names differ only by a
trailing space do NOT collapse into one entry with summed quantities; the
second is appended unchanged and the result has two entries. -/
theorem C4_counterexample :
    mergeCategory [cexItemA] [cexItemB] = [cexItemA, cexItemB] ∧
    (mergeCategory [cexItemA] [cexItemB]).length ≠ 1 := by
  constructor
  · decide
  · decide

/-- C4 amended: per category, an item of plan_b with no (lower-cased) name
match in the running list is appended unchanged; a match merges into the
last matching entry of the list; when all four quantity values convert
with `float()` (a missing key counting as 0), both `quantity_to_purchase`
and `total_quantity_needed` become the sums; if a `quantity_to_purchase`
conversion fails, plan_a's entry is kept entirely unchanged, while if only
a `total_quantity_needed` conversion fails, `quantity_to_purchase` has
already been summed and only `total_quantity_needed` keeps plan_a's value;
the three aggregate totals are summed across both batches (when the cost
conversions succeed). Name matching is by lower-casing only: whitespace
differences do not collapse. -/
theorem C4_shopping_merge_amended :
    (∀ (a : List SItem) (y : SItem) (n : String), y.item = some n →
      lastIdxWith (matchesKey (lowerStr n)) a = none →
      mergeCategory a [y] = a ++ [y]) ∧
    (∀ (a : List SItem) (y : SItem) (n : String) (i : ℕ),
      y.item = some n →
      lastIdxWith (matchesKey (lowerStr n)) a = some i →
      ∃ h : i < a.length,
        mergeCategory a [y] = a.set i (mergeQuantities (a.get ⟨i, h⟩) y)) ∧
    (∀ (ex y : SItem) (q1 q2 t1 t2 : ℚ),
      pyFloatD ex.quantity_to_purchase = some q1 →
      pyFloatD y.quantity_to_purchase = some q2 →
      pyFloatD ex.total_quantity_needed = some t1 →
      pyFloatD y.total_quantity_needed = some t2 →
      mergeQuantities ex y =
        { ex with quantity_to_purchase := some (.num (q1 + q2)),
                  total_quantity_needed := some (.num (t1 + t2)) }) ∧
    (∀ (ex y : SItem),
      pyFloatD ex.quantity_to_purchase = none ∨ pyFloatD y.quantity_to_purchase = none →
      mergeQuantities ex y = ex) ∧
    (∀ (ex y : SItem) (q1 q2 : ℚ),
      pyFloatD ex.quantity_to_purchase = some q1 →
      pyFloatD y.quantity_to_purchase = some q2 →
      pyFloatD ex.total_quantity_needed = none ∨ pyFloatD y.total_quantity_needed = none →
      mergeQuantities ex y = { ex with quantity_to_purchase := some (.num (q1 + q2)) }) ∧
    (∀ (sl1 sl2 : ShoppingList) (c1 c2 : ℚ),
      pyFloatD sl1.total_estimated_cost = some c1 →
      pyFloatD sl2.total_estimated_cost = some c2 →
      (mergeShoppingLists sl1 sl2).total_estimated_cost = some (.num (c1 + c2)) ∧
      (mergeShoppingLists sl1 sl2).total_items_from_inventory =
        some ((sl1.total_items_from_inventory.getD 0) + (sl2.total_items_from_inventory.getD 0)) ∧
      (mergeShoppingLists sl1 sl2).total_items_to_purchase =
        some ((sl1.total_items_to_purchase.getD 0) + (sl2.total_items_to_purchase.getD 0))) := by
  refine ⟨?_, ?_, ?_, ?_, ?_, ?_⟩
  · intro a y n hy hnone
    simp only [mergeCategory, List.foldl_cons, List.foldl_nil, mergeStep, hy, hnone]
  · intro a y n i hy hsome
    refine ⟨lastIdxWith_lt_length _ _ _ hsome, ?_⟩
    simp only [mergeCategory, List.foldl_cons, List.foldl_nil, mergeStep, hy, hsome]
    rw [List.getElem?_eq_getElem (lastIdxWith_lt_length _ _ _ hsome)]
    rfl
  · intro ex y q1 q2 t1 t2 h1 h2 h3 h4
    unfold mergeQuantities
    rw [h1, h2]
    simpa [h3] using by rw [h4]
  · intro ex y h
    unfold mergeQuantities
    rcases h with h | h
    · rw [h]
    · rw [h]
      cases pyFloatD ex.quantity_to_purchase <;> rfl
  · intro ex y q1 q2 h1 h2 h3
    unfold mergeQuantities
    rw [h1, h2]
    rcases h3 with h3 | h3
    · simp only [h3]
    · simp only [h3]
      cases pyFloatD ex.total_quantity_needed <;> rfl
  · intro sl1 sl2 c1 c2 h1 h2
    obtain ⟨e1, e2, e3⟩ := mergeCategories_totals sl1 sl2
    simp [mergeShoppingLists, e1, e2, e3, h1, h2]

/-- Witness for the amended C4: a non-matching item is appended unchanged,
and a case-only match (`Milk` vs `milk`) sums both quantity fields. -/
theorem C4_amended_witness :
    mergeCategory [cexItemA] [cexItemB] = [cexItemA] ++ [cexItemB] ∧
    mergeQuantities cexItemA ⟨some "milk", some (.num 3), some (.num 4)⟩ =
      { cexItemA with quantity_to_purchase := some (.num (2 + 3)),
                      total_quantity_needed := some (.num (2 + 4)) } :=
  ⟨C4_shopping_merge_amended.1 [cexItemA] cexItemB "milk " rfl (by decide),
   C4_shopping_merge_amended.2.2.1 cexItemA ⟨some "milk", some (.num 3), some (.num 4)⟩
     2 3 2 4 rfl rfl rfl rfl⟩

-- ==================== CLAIM C5 ====================

/-- C5: when either batch extraction returned null, or the merged structure
fails the structural validator, the generated plan is the mock fallback —
and in every case the caller receives either the mock plan or the fully
merged, validated, day-name-fixed plan: never a partially-merged one. -/
theorem C5_discard_on_failure (mock : PlanDoc) (d1 d2 : Option PlanDoc)
    (inv : ℕ) (npd : Option ℕ) (today : ℕ) :
    ((d1 = none ∨ d2 = none) → agent_generate_result mock d1 d2 inv npd today = mock) ∧
    (∀ a b, d1 = some a → d2 = some b →
      validate_meal_plan_structure (mergedOf a b inv) = false →
      agent_generate_result mock d1 d2 inv npd today = mock) ∧
    (agent_generate_result mock d1 d2 inv npd today = mock ∨
      ∃ a b, d1 = some a ∧ d2 = some b ∧
        validate_meal_plan_structure (mergedOf a b inv) = true ∧
        agent_generate_result mock d1 d2 inv npd today =
          fix_day_names_with_start_date (mergedOf a b inv) (some (npd.getD today)) today) := by
  refine ⟨?_, ?_, ?_⟩
  · rintro (rfl | rfl)
    · unfold agent_generate_result agent_generate_merge
      cases d2 <;> rfl
    · unfold agent_generate_result agent_generate_merge
      cases d1 <;> rfl
  · rintro a b rfl rfl hv
    unfold agent_generate_result agent_generate_merge
    simp [hv]
  · cases d1 with
    | none =>
      left
      unfold agent_generate_result agent_generate_merge
      cases d2 <;> rfl
    | some a =>
      cases d2 with
      | none =>
        left
        rfl
      | some b =>
        by_cases hv : validate_meal_plan_structure (mergedOf a b inv) = true
        · exact Or.inr ⟨a, b, rfl, rfl, hv,
            agent_generate_result_of_valid mock a b inv npd today hv⟩
        · left
          unfold agent_generate_result agent_generate_merge
          simp [hv]

/-- Witness for C5: a failed first extraction yields the mock plan. -/
theorem C5_witness :
    agent_generate_result wMock none (some wPlanB) 0 none 0 = wMock :=
  (C5_discard_on_failure wMock none (some wPlanB) 0 none 0).1 (Or.inl rfl)

-- ==================== CLAIM C6 ====================

/-- `k` consecutive aggregate→generate→persist attempts whose persistence
step always raises. -/
def failAttempts (k : ℕ) (s : WFState) : WFState := (failingCycle 3)^[k] s

/-- The state after one failing cycle while the bound is not exceeded. -/
def cycleStateLe (s : WFState) : WFState :=
  { s with current_user := some (), user_data := some (),
           generated_plan := some (), retry_count := s.retry_count + 1 }

/-- The state after the failing cycle that exceeds the bound. -/
def cycleStateOver (s : WFState) : WFState :=
  { s with current_user := some (), user_data := some (),
           generated_plan := some (), retry_count := 0,
           failure_count := s.failure_count + 1, errorsLen := s.errorsLen + 1 }

lemma failingCycle_le (s : WFState) (h : s.retry_count + 1 ≤ 3) :
    failingCycle 3 s = cycleStateLe s := by
  unfold failingCycle repopulate_user_data agent_persist_plan cycleStateLe
  simp only [Option.isNone_some, Bool.false_eq_true, if_false, Bool.or_self]
  rw [if_neg (by omega)]

lemma failingCycle_over (s : WFState) (h : s.retry_count = 3) :
    failingCycle 3 s = cycleStateOver s := by
  unfold failingCycle repopulate_user_data agent_persist_plan cycleStateOver
  simp only [Option.isNone_some, Bool.false_eq_true, if_false, Bool.or_self]
  rw [if_pos (by omega)]

/-- C6: for a user whose persistence raises on every attempt
(`max_retries = 3`), each of the first three failures increments the
per-user retry counter and routes back to `aggregate_data` for the same
user; the fourth failure exceeds the bound: exactly 1 is added to
`failure_count`, one error record is appended, `retry_count` is reset to 0
(not left at 3), and routing advances to the next user. -/
theorem C6_retry_bounded (s0 : WFState) (users_len : ℕ)
    (h0 : s0.retry_count = 0) (hu : s0.current_user_index + 1 < users_len) :
    ((failAttempts 1 s0).retry_count = 1 ∧
     (route_next_step 3 users_len (failAttempts 1 s0)).1 = "retry" ∧
     (failAttempts 1 s0).current_user_index = s0.current_user_index) ∧
    ((failAttempts 2 s0).retry_count = 2 ∧
     (route_next_step 3 users_len (failAttempts 2 s0)).1 = "retry" ∧
     (failAttempts 2 s0).current_user_index = s0.current_user_index) ∧
    ((failAttempts 3 s0).retry_count = 3 ∧
     (route_next_step 3 users_len (failAttempts 3 s0)).1 = "retry" ∧
     (failAttempts 3 s0).current_user_index = s0.current_user_index) ∧
    ((failAttempts 4 s0).failure_count = s0.failure_count + 1 ∧
     (failAttempts 4 s0).errorsLen = s0.errorsLen + 1 ∧
     (failAttempts 4 s0).retry_count = 0 ∧
     (route_next_step 3 users_len (failAttempts 4 s0)).1 = "next_user" ∧
     (route_next_step 3 users_len (failAttempts 4 s0)).2.current_user_index =
       s0.current_user_index + 1 ∧
     (route_next_step 3 users_len (failAttempts 4 s0)).2.retry_count = 0) := by
  have hc1 : failAttempts 1 s0 = cycleStateLe s0 := by
    show failingCycle 3 s0 = _
    exact failingCycle_le s0 (by omega)
  have hc2 : failAttempts 2 s0 = cycleStateLe (cycleStateLe s0) := by
    show failingCycle 3 (failAttempts 1 s0) = _
    rw [hc1]
    exact failingCycle_le _ (by simp [cycleStateLe]; omega)
  have hc3 : failAttempts 3 s0 = cycleStateLe (cycleStateLe (cycleStateLe s0)) := by
    show failingCycle 3 (failAttempts 2 s0) = _
    rw [hc2]
    exact failingCycle_le _ (by simp [cycleStateLe]; omega)
  have hc4 : failAttempts 4 s0 = cycleStateOver (cycleStateLe (cycleStateLe (cycleStateLe s0))) := by
    show failingCycle 3 (failAttempts 3 s0) = _
    rw [hc3]
    exact failingCycle_over _ (by simp [cycleStateLe]; omega)
  refine ⟨⟨?_, ?_, ?_⟩, ⟨?_, ?_, ?_⟩, ⟨?_, ?_, ?_⟩, ?_, ?_, ?_, ?_, ?_, ?_⟩ <;>
    simp [hc1, hc2, hc3, hc4, cycleStateLe, cycleStateOver, route_next_step, h0, hu]

/-- Witness for C6 at a concrete initial state (two users, counters 0). -/
theorem C6_witness :
    ((failAttempts 1 ⟨none, none, none, 0, 0, 0, 0, 0⟩).retry_count = 1 ∧
     (route_next_step 3 2 (failAttempts 1 ⟨none, none, none, 0, 0, 0, 0, 0⟩)).1 = "retry" ∧
     (failAttempts 1 ⟨none, none, none, 0, 0, 0, 0, 0⟩).current_user_index = 0) ∧
    ((failAttempts 2 ⟨none, none, none, 0, 0, 0, 0, 0⟩).retry_count = 2 ∧
     (route_next_step 3 2 (failAttempts 2 ⟨none, none, none, 0, 0, 0, 0, 0⟩)).1 = "retry" ∧
     (failAttempts 2 ⟨none, none, none, 0, 0, 0, 0, 0⟩).current_user_index = 0) ∧
    ((failAttempts 3 ⟨none, none, none, 0, 0, 0, 0, 0⟩).retry_count = 3 ∧
     (route_next_step 3 2 (failAttempts 3 ⟨none, none, none, 0, 0, 0, 0, 0⟩)).1 = "retry" ∧
     (failAttempts 3 ⟨none, none, none, 0, 0, 0, 0, 0⟩).current_user_index = 0) ∧
    ((failAttempts 4 ⟨none, none, none, 0, 0, 0, 0, 0⟩).failure_count = 0 + 1 ∧
     (failAttempts 4 ⟨none, none, none, 0, 0, 0, 0, 0⟩).errorsLen = 0 + 1 ∧
     (failAttempts 4 ⟨none, none, none, 0, 0, 0, 0, 0⟩).retry_count = 0 ∧
     (route_next_step 3 2 (failAttempts 4 ⟨none, none, none, 0, 0, 0, 0, 0⟩)).1 = "next_user" ∧
     (route_next_step 3 2 (failAttempts 4 ⟨none, none, none, 0, 0, 0, 0, 0⟩)).2.current_user_index = 0 + 1 ∧
     (route_next_step 3 2 (failAttempts 4 ⟨none, none, none, 0, 0, 0, 0, 0⟩)).2.retry_count = 0) :=
  C6_retry_bounded ⟨none, none, none, 0, 0, 0, 0, 0⟩ 2 rfl (by decide)

-- ==================== CLAIM C7 ====================

/-- An overdue schedule row: due on day 10 while today is day 12. -/
def cexSched : ScheduleRow := ⟨1, 1, "ACTIVE", 10⟩

/-- C7 counterexample: after a successful persist run on day 12 for the
schedule due on day 10, `next_plan_date` becomes `today + 7 = 19`, not the
previous `next_plan_date + 7 = 17` — the date is not "advanced by exactly
7 days" for an overdue schedule. -/
theorem C7_counterexample :
    (persist_success_db 1 1 12 [cexSched]).map (·.next_plan_date) = [19] ∧
    (19 : ℕ) ≠ 10 + 7 := by
  constructor
  · rfl
  · decide

/-- C7 amended: after a successful persist, every other schedule row of the
user is INACTIVE (hence any remaining ACTIVE row of the user is the current
schedule), the current schedule's `next_plan_date` is set to today + 7
(which equals the old date + 7 only when run on the due date), and
`success_count` is incremented with the retry counter cleared. -/
theorem C7_persist_invariants :
    (∀ (db : List ScheduleRow) (uid sid today : ℕ) (r : ScheduleRow),
      r ∈ persist_success_db uid sid today db →
      (r.user_id = uid → r.schedule_id ≠ sid → r.status = "INACTIVE") ∧
      (r.schedule_id = sid → r.next_plan_date = today + 7) ∧
      (r.user_id = uid → r.status = "ACTIVE" → r.schedule_id = sid)) ∧
    (∀ (mr : ℕ) (s : WFState),
      s.current_user.isSome = true → s.user_data.isSome = true →
      s.generated_plan.isSome = true →
      (agent_persist_plan mr .ok s).success_count = s.success_count + 1 ∧
      (agent_persist_plan mr .ok s).retry_count = 0) := by
  constructor
  · intro db uid sid today r hr
    unfold persist_success_db update_next_date deactivate_others at hr
    rw [List.map_map] at hr
    obtain ⟨x, -, rfl⟩ := List.mem_map.mp hr
    simp only [Function.comp_apply]
    by_cases h1 : x.user_id = uid ∧ x.schedule_id ≠ sid
    · rw [if_pos h1]
      by_cases h2 : x.schedule_id = sid
    -- the deactivated row keeps its ids, so the date update does not apply
      · exact absurd h2 h1.2
      · rw [if_neg h2]
        exact ⟨fun _ _ => rfl, fun hs => absurd hs h2, fun _ hact => by simp at hact⟩
    · rw [if_neg h1]
      by_cases h2 : x.schedule_id = sid
      · rw [if_pos h2]
        exact ⟨fun _ hne => absurd h2 hne, fun _ => rfl, fun _ _ => h2⟩
      · rw [if_neg h2]
        exact ⟨fun hu hne => (h1 ⟨hu, hne⟩).elim, fun hs => absurd hs h2,
          fun hu _ => by by_contra hne; exact h1 ⟨hu, hne⟩⟩
  · intro mr s h1 h2 h3
    unfold agent_persist_plan
    have e1 : s.current_user.isNone = false := by
      cases hcu : s.current_user
      · rw [hcu] at h1; simp at h1
      · rfl
    have e2 : s.generated_plan.isNone = false := by
      cases hg : s.generated_plan
      · rw [hg] at h3; simp at h3
      · rfl
    have e3 : s.user_data.isNone = false := by
      cases hud : s.user_data
      · rw [hud] at h2; simp at h2
      · rfl
    simp [e1, e2, e3]

/-- Witness for the amended C7 at a concrete two-row table. -/
theorem C7_amended_witness :
    ((⟨2, 1, "INACTIVE", 19⟩ : ScheduleRow) ∈
        persist_success_db 1 1 12 [cexSched, ⟨2, 1, "ACTIVE", 10⟩] →
      (((2 : ℕ) = 1 → (1 : ℕ) ≠ 1 → True))) ∧
    (agent_persist_plan 3 .ok ⟨some (), some (), some (), 2, 5, 0, 0, 0⟩).success_count = 5 + 1 ∧
    (agent_persist_plan 3 .ok ⟨some (), some (), some (), 2, 5, 0, 0, 0⟩).retry_count = 0 :=
  ⟨fun _ => fun _ _ => trivial,
   (C7_persist_invariants.2 3 ⟨some (), some (), some (), 2, 5, 0, 0, 0⟩ rfl rfl rfl).1,
   (C7_persist_invariants.2 3 ⟨some (), some (), some (), 2, 5, 0, 0, 0⟩ rfl rfl rfl).2⟩

-- ==================== CLAIM C8 ====================

/-- C8: the extractor is a total function into `Option` — every input
string yields a parsed value or null, never an exception — and its result
is exactly the first success of: parse the whole stripped string, parse the
first `[...]` span, parse the first `{...}` span; it is null exactly when
all three attempts fail. `loads` is `json.loads`, modelled as a total
function with `none` for a parse error. -/
theorem C8_extractor_total_and_ordered (loads : String → Option JsonV)
    (raw : String) :
    extract_json_from_response loads raw =
      ((loads raw.trim).orElse (fun _ =>
        ((regexSpan '[' ']' raw.trim).bind loads).orElse (fun _ =>
          (regexSpan '\x7b' '\x7d' raw.trim).bind loads))) ∧
    (extract_json_from_response loads raw = none ↔
      loads raw.trim = none ∧
      (regexSpan '[' ']' raw.trim).bind loads = none ∧
      (regexSpan '\x7b' '\x7d' raw.trim).bind loads = none) := by
  unfold extract_json_from_response
  cases h1 : loads raw.trim with
  | some v => simp [Option.orElse, h1]
  | none =>
    cases h2 : (regexSpan '[' ']' raw.trim).bind loads with
    | some v => simp [Option.orElse, h1, h2]
    | none =>
      cases h3 : (regexSpan '\x7b' '\x7d' raw.trim).bind loads with
      | some v => simp [Option.orElse, h1, h2, h3]
      | none => simp [Option.orElse, h1, h2, h3]

-- ==================== CLAIM C9 ====================

/-- Invariant of the streaming accumulator: every yielded string is
non-empty, and once a response was yielded (or a final response recorded)
at least one string was yielded. -/
def goodAcc (a : StreamAcc) : Prop :=
  (∀ y ∈ a.yields, y ≠ "") ∧
  (a.response_yielded = true → a.yields ≠ []) ∧
  (a.final_response ≠ "" → a.yields ≠ [])

lemma statusFor_ne_empty (k : String) (v : ChatState) (st : String)
    (h : statusFor k v = some st) : st ≠ "" := by
  unfold statusFor at h
  split_ifs at h
  all_goals first
    | exact Option.noConfusion h
    | (injection h with h; subst h; decide)

lemma streamRecordMessages_good (acc : StreamAcc) (v : ChatState)
    (h : goodAcc acc) : goodAcc (streamRecordMessages acc v) := by
  unfold streamRecordMessages
  split
  · split
    · exact h
    · exact h
  · exact h

lemma streamYieldResponse_good (acc : StreamAcc) (v : ChatState)
    (h : goodAcc acc) : goodAcc (streamYieldResponse acc v) := by
  unfold streamYieldResponse
  by_cases hr : v.response ≠ ""
  · rw [if_pos hr]
    refine ⟨?_, fun _ => by simp, fun _ => by simp⟩
    intro y hy
    rcases List.mem_append.mp hy with hy | hy
    · exact h.1 y hy
    · rw [List.mem_singleton] at hy; rw [hy]; exact hr
  · rw [if_neg hr]; exact h

lemma streamYieldStatus_good (acc : StreamAcc) (kv : String × ChatState)
    (h : goodAcc acc) : goodAcc (streamYieldStatus acc kv) := by
  unfold streamYieldStatus
  by_cases hry : acc.response_yielded = true
  · rw [if_pos hry]; exact h
  · rw [if_neg hry]
    cases hst : statusFor kv.1 kv.2 with
    | none => exact h
    | some st =>
      refine ⟨?_, fun _ => by simp, fun _ => by simp⟩
      intro y hy
      rcases List.mem_append.mp hy with hy | hy
      · exact h.1 y hy
      · rw [List.mem_singleton] at hy; rw [hy]
        exact statusFor_ne_empty kv.1 kv.2 st hst

lemma streamStep_good (acc : StreamAcc) (kv : String × ChatState)
    (h : goodAcc acc) : goodAcc (streamStep acc kv) :=
  streamYieldStatus_good _ _ (streamYieldResponse_good _ _ (streamRecordMessages_good _ _ h))

lemma foldl_streamStep_good (trace : List (String × ChatState)) (acc : StreamAcc)
    (h : goodAcc acc) : goodAcc (trace.foldl streamStep acc) := by
  induction trace generalizing acc with
  | nil => exact h
  | cons kv tl ih => exact ih _ (streamStep_good _ _ h)

lemma tokenStep_good (acc : StreamAcc) (t : String)
    (h : goodAcc acc) : goodAcc (tokenStep acc t) := by
  unfold tokenStep
  by_cases ht : t ≠ ""
  · rw [if_pos ht]
    refine ⟨?_, fun _ => by simp, fun _ => by simp⟩
    intro y hy
    rcases List.mem_append.mp hy with hy | hy
    · exact h.1 y hy
    · rw [List.mem_singleton] at hy; rw [hy]; exact ht
  · rw [if_neg ht]; exact h

lemma foldl_tokenStep_good (ts : List String) (acc : StreamAcc)
    (h : goodAcc acc) : goodAcc (ts.foldl tokenStep acc) := by
  induction ts generalizing acc with
  | nil => exact h
  | cons t tl ih => exact ih _ (tokenStep_good _ _ h)

lemma append_left_ne_empty (s t : String) (hs : s ≠ "") : s ++ t ≠ "" := by
  intro hest
  apply hs
  have hd := congrArg String.data hest
  rw [String.data_append] at hd
  have hs0 : s.data = [] := (List.append_eq_nil.mp hd).1
  cases s with
  | mk d => simp at hs0; rw [hs0]

lemma streamPhase2_good (env : ChatEnv) (acc : StreamAcc)
    (h : goodAcc acc) : goodAcc (streamPhase2 env acc) := by
  unfold streamPhase2
  split
  · rename_i msgs hfm hry
    split
    · split
      · exact foldl_tokenStep_good _ acc h
      · refine ⟨?_, ?_, fun _ => by simp⟩
        · intro y hy
          rcases List.mem_append.mp hy with hy | hy
          · exact h.1 y hy
          · rw [List.mem_singleton] at hy; rw [hy]
            exact append_left_ne_empty _ _ (by decide)
        · intro hb
          rw [hry] at hb
          exact absurd hb (by decide)
    · refine ⟨?_, ?_, fun _ => by simp⟩
      · intro y hy
        rcases List.mem_append.mp hy with hy | hy
        · exact h.1 y hy
        · rw [List.mem_singleton] at hy; rw [hy]; decide
      · intro hb
        rw [hry] at hb
        exact absurd hb (by decide)
  · exact h

lemma routeOf_cases (input : String) :
    routeOf input = "meal_adjustment" ∨ routeOf input = "calorie_estimation" ∨
    routeOf input = "meal_retrieval" ∨ routeOf input = "general_chat" := by
  unfold routeOf
  dsimp only
  split_ifs <;> simp

lemma generate_response_keeps_response (env : ChatEnv) (s : ChatState)
    (hadj : s.adjustment_result = none) :
    (node_generate_response env s).response = s.response := by
  unfold node_generate_response
  split
  · rename_i r hr
    rw [hadj] at hr
    exact Option.noConfusion hr
  · split
    · split
      · rfl
      · rfl
    · rfl

/-- A concrete, fully-functioning environment with all collaborators
available and returning normally. -/
def cexEnv : ChatEnv :=
  { getUserPreferences := fun _ => Prefs.empty,
    formatPreferencesForPrompt := fun p => p.raw,
    extractPreferences := fun _ _ => [],
    retrieveMealsText := fun _ _ => "No meals found matching your criteria.",
    adjust := fun _ _ _ _ => ⟨"error", "Agent offline", ⟨0, 0, 0, 0, 0⟩⟩,
    llmDateExtract := fun _ => none,
    monitorChanges := fun _ _ => [],
    chatModelPresent := true,
    chatStream := fun _ => .tokens ["Hi"],
    todayYMD := "2026-10-12",
    todayLong := "Sunday, October 12, 2026" }

/-- A concrete profile. -/
def cexProfile : ChatProfile := ⟨"User", "General Health", "None", "None"⟩

/-- C9 counterexample: `run_chat` on the greeting "hello" (routed to
general chat) returns the empty string, not a non-empty textual reply —
the non-streaming entry point performs no LLM call and the state's
`response` field is never set on the general-chat, calorie-estimation and
meal-retrieval paths. -/
theorem C9_counterexample :
    run_chat cexEnv "hello" "u1" [] cexProfile "" "" = "" := by decide

/-- C9 amended: `run_chat_stream` always yields at least one string and
every string it yields is non-empty (statuses, the static adjustment
reply, streamed tokens, the offline notice, the error string, or the
terminal fallback) — given collaborators that return rather than raise;
`run_chat`, by contrast, performs no LLM call and returns the empty
string whenever the message does not route to meal adjustment. -/
theorem C9_chat_reply_amended :
    (∀ (env : ChatEnv) (ui uid : String) (hist : List Msg) (prof : ChatProfile)
        (inv mps : String) (prefs : Option Prefs),
      run_chat_stream env ui uid hist prof inv mps prefs ≠ [] ∧
      ∀ y ∈ run_chat_stream env ui uid hist prof inv mps prefs, y ≠ "") ∧
    (∀ (env : ChatEnv) (ui uid : String) (hist : List Msg) (prof : ChatProfile)
        (inv mps : String),
      routeOf ui ≠ "meal_adjustment" →
      run_chat env ui uid hist prof inv mps = "") := by
  constructor
  · intro env ui uid hist prof inv mps prefs
    unfold run_chat_stream
    dsimp only
    have g : goodAcc ((chatTrace env (initChatState ui uid prof inv mps hist prefs)).foldl
        streamStep ⟨[], "", false, none⟩) := by
      apply foldl_streamStep_good
      refine ⟨?_, ?_, ?_⟩ <;> simp
    have g2 := streamPhase2_good env _ g
    generalize hA : streamPhase2 env ((chatTrace env
      (initChatState ui uid prof inv mps hist prefs)).foldl streamStep ⟨[], "", false, none⟩) = a2
    rw [hA] at g2
    unfold streamPhase3
    by_cases hc : (!a2.response_yielded && (a2.final_response == "")) = true
    · rw [if_pos hc]
      constructor
      · simp
      · intro y hy
        rcases List.mem_append.mp hy with hy | hy
        · exact g2.1 y hy
        · rw [List.mem_singleton] at hy; rw [hy]; decide
    · rw [if_neg hc]
      have hkey : a2.response_yielded = true ∨ a2.final_response ≠ "" := by
        cases hry : a2.response_yielded with
        | true => exact Or.inl rfl
        | false =>
          right
          intro hfr
          apply hc
          rw [hry, hfr]
          decide
      constructor
      · rcases hkey with hk | hk
        · exact g2.2.1 hk
        · exact g2.2.2 hk
      · exact g2.1
  · intro env ui uid hist prof inv mps hne
    rcases routeOf_cases ui with h | h | h | h
    · exact absurd h hne
    · simp [run_chat, chatFinalState, chatTrace, initChatState, node_load_preferences,
        node_route_query, node_estimate_calories, node_extract_feedback, h]
    · by_cases hrd : env.retrieveMealsText ui uid == ""
      · simp [run_chat, chatFinalState, chatTrace, initChatState, node_load_preferences,
          node_route_query, node_retrieve_meals, node_generate_response,
          node_extract_feedback, h, hrd]
      · simp [run_chat, chatFinalState, chatTrace, initChatState, node_load_preferences,
          node_route_query, node_retrieve_meals, node_generate_response,
          node_extract_feedback, h, hrd]
    · simp [run_chat, chatFinalState, chatTrace, initChatState, node_load_preferences,
        node_route_query, node_general_chat, node_extract_feedback, h]

/-- Witness for the amended C9: concrete stream run yields non-empty
strings, and the concrete non-adjustment `run_chat` returns "". -/
theorem C9_amended_witness :
    (run_chat_stream cexEnv "hello" "u1" [] cexProfile "" "" none ≠ [] ∧
      ∀ y ∈ run_chat_stream cexEnv "hello" "u1" [] cexProfile "" "" none, y ≠ "") ∧
    run_chat cexEnv "hello" "u1" [] cexProfile "" "" = "" :=
  ⟨C9_chat_reply_amended.1 cexEnv "hello" "u1" [] cexProfile "" "" none,
   C9_chat_reply_amended.2 cexEnv "hello" "u1" [] cexProfile "" "" (by decide)⟩

-- ==================== CLAIM C10 ====================

/-- C10 (implicit): the structural validator accepts exactly the documents
carrying the four top-level keys and a non-empty `meal_plan.days` list —
nothing else is checked, in particular no day count of 7 — and any merged
plan passing it (e.g. a single-day one) proceeds to the day-name fix and
becomes the generated (to-be-persisted) plan. -/
theorem C10_validator_minimal :
    (∀ p : PlanDoc, validate_meal_plan_structure p = true ↔
      (p.user_summary = true ∧ p.metadata = true ∧ p.recommendations.isSome = true ∧
       ∃ mp ds, p.meal_plan = some mp ∧ mp.days = some ds ∧ 1 ≤ ds.length)) ∧
    (∀ (a b : PlanDoc) (inv : ℕ) (npd : Option ℕ) (today : ℕ) (mock : PlanDoc),
      validate_meal_plan_structure (mergedOf a b inv) = true →
      agent_generate_result mock (some a) (some b) inv npd today =
        fix_day_names_with_start_date (mergedOf a b inv) (some (npd.getD today)) today) :=
  ⟨validate_eq_true_iff,
   fun _ _ _ _ _ _ hv => agent_generate_result_of_valid _ _ _ _ _ _ hv⟩

/-- A second batch contributing no days. -/
def cexOneB : PlanDoc := ⟨true, some ⟨some [], none⟩, some ⟨none⟩, true⟩

/-- Witness for C10: a single-day merged plan passes validation and the
generated plan is the day-name-fixed merged plan. -/
theorem C10_witness :
    validate_meal_plan_structure (mergedOf wPlanB cexOneB 0) = true ∧
    (planDays (mergedOf wPlanB cexOneB 0)).length = 1 ∧
    agent_generate_result wMock (some wPlanB) (some cexOneB) 0 none 5 =
      fix_day_names_with_start_date (mergedOf wPlanB cexOneB 0) (some 5) 5 :=
  ⟨by decide, by decide,
   C10_validator_minimal.2 wPlanB cexOneB 0 none 5 wMock (by decide)⟩
